import Mathlib

/-!
Shallow embedding of `src/index.ts` of kysely-d1: the `D1Dialect` /
`D1Driver` / `D1Connection` classes that adapt Cloudflare D1's
prepare/bind/all interface to Kysely's `DatabaseConnection` contract.

JavaScript values that can appear in rows and bind parameters are
modelled by `JSVal`; a JS number is a rational (`ℚ`), which is enough to
distinguish integral from non-integral numbers, the only distinction
`BigInt(...)` conversion in this code depends on.  The remote store
(`config.database.prepare(sql).bind(...params).all()`) is modelled as a
function from the SQL text and the parameter list to a `D1Result`; every
operation returns, next to its outcome, the list of remote calls it
performed, so that "performs no remote call" and "forwards exactly these
parameters" are statable.  A thrown JS exception is an `Except.error`:
`JsError.thrown msg` for `throw new Error(msg)`, `JsError.rangeError`
for the exception `BigInt(...)` raises on a non-convertible argument.
-/

/-- A JavaScript value as it occurs in D1 rows and bind parameters.
Numbers are rationals: this code only ever asks whether a number is
integral (`BigInt` conversion), never anything float-specific. -/
inductive JSVal where
  | undefined
  | null
  | num (q : ℚ)
  | str (s : String)
  | boolean (b : Bool)
deriving DecidableEq, Repr

/-- A result row: a JS object, modelled as an association list of
field names to values. -/
abbrev Row := List (String × JSVal)

/-- The `meta` object of a D1 response: `rows_read` and `rows_written`. -/
structure D1Meta where
  rows_read : Nat
  rows_written : Nat
deriving DecidableEq, Repr

/-- The shape returned by `database.prepare(sql).bind(...).all()`:
`{ error?: string, meta: {rows_read, rows_written}, results: Array<record> }`.
`error = none` models an absent / null / undefined error field. -/
structure D1Result where
  error : Option String
  meta : D1Meta
  results : List Row
deriving DecidableEq, Repr

/-- Kysely's `CompiledQuery` as consumed here: the rendered SQL text and
the ordered bind parameters. -/
structure CompiledQuery where
  sql : String
  parameters : List JSVal
deriving DecidableEq, Repr

/-- One `prepare(sql).bind(...params).all()` call actually issued to the
remote store. -/
structure RemoteCall where
  sql : String
  params : List JSVal
deriving DecidableEq, Repr

/-- The `QueryResult` record built by `D1Connection.executeQuery`,
including the deprecated `numUpdatedOrDeletedRows` field the source
still sets for backward compatibility. -/
structure QueryResult where
  insertId : Option Int
  rows : List Row
  numAffectedRows : Nat
  numUpdatedOrDeletedRows : Nat
deriving DecidableEq, Repr

/-- A thrown JS exception: `thrown msg` is `throw new Error(msg)`;
`rangeError` is the exception `BigInt(x)` raises when `x` cannot be
converted to a BigInt. -/
inductive JsError where
  | thrown (msg : String)
  | rangeError
deriving DecidableEq, Repr

/-- JS truthiness of the optional `error : string` field:
`if (result.error)` is taken exactly when the field holds a non-empty
string. -/
def errTruthy : Option String → Bool
  | none => false
  | some s => s ≠ ""

/-- Value of a decimal digit list, most significant first. -/
def digitsVal (l : List Char) : Nat :=
  l.foldl (fun a c => 10 * a + (c.toNat - 48)) 0

/-- `BigInt(s)` for a string `s`: trimmed; empty string is `0n`; an
optional sign followed by decimal digits parses; anything else throws. -/
def jsBigIntOfString (s : String) : Option Int :=
  let t := (s.trim).data
  match t with
  | [] => some 0
  | '-' :: rest =>
      if rest ≠ [] ∧ rest.all Char.isDigit then some (-(digitsVal rest : Int)) else none
  | '+' :: rest =>
      if rest ≠ [] ∧ rest.all Char.isDigit then some (digitsVal rest : Int) else none
  | l => if l.all Char.isDigit then some (digitsVal l : Int) else none

/-- `BigInt(v)` for a JS value `v`: integral numbers convert to their
value, non-integral numbers throw (`none`), strings parse, booleans map
to 0/1, `undefined` and `null` throw. -/
def jsBigInt : JSVal → Option Int
  | JSVal.undefined => none
  | JSVal.null => none
  | JSVal.num q => if q.den = 1 then some q.num else none
  | JSVal.str s => jsBigIntOfString s
  | JSVal.boolean b => some (if b then 1 else 0)

/-- JS property access `r[k]` on a row object: the stored value, or
`undefined` when the field is absent. -/
def jsGet (r : Row) (k : String) : JSVal :=
  match r.find? (fun p => p.1 == k) with
  | some p => p.2
  | none => JSVal.undefined

/-- `lastRow?.id`: optional chaining on `results[results.length - 1]`;
`undefined` when there is no last row. -/
def optChainId : Option Row → JSVal
  | none => JSVal.undefined
  | some r => jsGet r "id"

/-- The `D1DialectConfig`: holds the remote store handle, modelled as
the response function of `prepare(sql).bind(...params).all()`. -/
structure D1DialectConfig where
  database : String → List JSVal → D1Result

/-- The connection adapter: wraps one configuration reference and
nothing else (the commented-out transaction client does not exist). -/
structure D1Connection where
  config : D1DialectConfig

/-- The driver adapter: wraps the same configuration reference. -/
structure D1Driver where
  config : D1DialectConfig

/-- The dialect: wraps the configuration. -/
structure D1Dialect where
  config : D1DialectConfig

/-- The error/success mapping `executeQuery` applies to the remote
response, mirroring lines 111-124 of the source: throw on a truthy
`error`, else sum `rows_read + rows_written`, take `lastRow?.id`,
convert it with `BigInt` unless it is `undefined` or `null`, and return
the rows verbatim. -/
def d1MapResult (result : D1Result) : Except JsError QueryResult :=
  if errTruthy result.error then
    Except.error (JsError.thrown (result.error.getD ""))
  else if optChainId result.results.getLast? = JSVal.undefined ∨
          optChainId result.results.getLast? = JSVal.null then
    Except.ok ⟨none, result.results,
      result.meta.rows_read + result.meta.rows_written,
      result.meta.rows_read + result.meta.rows_written⟩
  else
    match jsBigInt (optChainId result.results.getLast?) with
    | some i =>
        Except.ok ⟨some i, result.results,
          result.meta.rows_read + result.meta.rows_written,
          result.meta.rows_read + result.meta.rows_written⟩
    | none => Except.error JsError.rangeError

/-- `D1Connection.executeQuery`: issue exactly one remote call with the
compiled query's SQL and parameters, then map the response through
`d1MapResult`.  The second component is the trace of remote calls. -/
def D1Connection.executeQuery (c : D1Connection) (q : CompiledQuery) :
    Except JsError QueryResult × List RemoteCall :=
  (d1MapResult (c.config.database q.sql q.parameters), [⟨q.sql, q.parameters⟩])

/-- `D1Connection.beginTransaction`: unconditionally throws. -/
def D1Connection.beginTransaction (_c : D1Connection) :
    Except JsError Unit × List RemoteCall :=
  (Except.error (JsError.thrown "Transactions are not supported yet."), [])

/-- `D1Connection.commitTransaction`: unconditionally throws. -/
def D1Connection.commitTransaction (_c : D1Connection) :
    Except JsError Unit × List RemoteCall :=
  (Except.error (JsError.thrown "Transactions are not supported yet."), [])

/-- `D1Connection.rollbackTransaction`: unconditionally throws. -/
def D1Connection.rollbackTransaction (_c : D1Connection) :
    Except JsError Unit × List RemoteCall :=
  (Except.error (JsError.thrown "Transactions are not supported yet."), [])

/-- `D1Connection.streamQuery`: the async generator throws before
yielding anything, for every compiled query and chunk size. -/
def D1Connection.streamQuery (_c : D1Connection) (_q : CompiledQuery)
    (_chunkSize : Nat) : Except JsError (List QueryResult) × List RemoteCall :=
  (Except.error (JsError.thrown "D1 Driver does not support streaming"), [])

/-- `D1Driver.init`: no-op. -/
def D1Driver.init (_d : D1Driver) : Except JsError Unit × List RemoteCall :=
  (Except.ok (), [])

/-- `D1Driver.acquireConnection`: constructs a new `D1Connection` bound
to the same configuration; no remote call. -/
def D1Driver.acquireConnection (d : D1Driver) :
    Except JsError D1Connection × List RemoteCall :=
  (Except.ok ⟨d.config⟩, [])

/-- `D1Driver.beginTransaction`: forwards to the connection. -/
def D1Driver.beginTransaction (_d : D1Driver) (conn : D1Connection) :
    Except JsError Unit × List RemoteCall :=
  conn.beginTransaction

/-- `D1Driver.commitTransaction`: forwards to the connection. -/
def D1Driver.commitTransaction (_d : D1Driver) (conn : D1Connection) :
    Except JsError Unit × List RemoteCall :=
  conn.commitTransaction

/-- `D1Driver.rollbackTransaction`: forwards to the connection. -/
def D1Driver.rollbackTransaction (_d : D1Driver) (conn : D1Connection) :
    Except JsError Unit × List RemoteCall :=
  conn.rollbackTransaction

/-- `D1Driver.releaseConnection`: no-op. -/
def D1Driver.releaseConnection (_d : D1Driver) (_conn : D1Connection) :
    Except JsError Unit × List RemoteCall :=
  (Except.ok (), [])

/-- `D1Driver.destroy`: no-op. -/
def D1Driver.destroy (_d : D1Driver) : Except JsError Unit × List RemoteCall :=
  (Except.ok (), [])

/-- `D1Dialect.createDriver`: a `D1Driver` over the same configuration. -/
def D1Dialect.createDriver (d : D1Dialect) : D1Driver :=
  ⟨d.config⟩

/-! ## Helper lemmas characterising `d1MapResult` -/

/-- On a successful mapping, the rows are the remote rows, both count
fields equal `rows_read + rows_written`, the error field was not
truthy, and `insertId` is governed by the last row's `id` field. -/
theorem d1MapResult_ok_spec (res : D1Result) (r : QueryResult)
    (h : d1MapResult res = Except.ok r) :
    errTruthy res.error = false ∧
    r.rows = res.results ∧
    r.numAffectedRows = res.meta.rows_read + res.meta.rows_written ∧
    r.numUpdatedOrDeletedRows = res.meta.rows_read + res.meta.rows_written ∧
    (((optChainId res.results.getLast? = JSVal.undefined ∨
       optChainId res.results.getLast? = JSVal.null) ∧ r.insertId = none) ∨
     (¬(optChainId res.results.getLast? = JSVal.undefined ∨
        optChainId res.results.getLast? = JSVal.null) ∧
      ∃ i, jsBigInt (optChainId res.results.getLast?) = some i ∧
        r.insertId = some i)) := by
  unfold d1MapResult at h
  split at h
  · exact absurd h (by simp)
  · next herr =>
    split at h
    · next hcond =>
      cases h
      exact ⟨by simpa using herr, rfl, rfl, rfl, Or.inl ⟨hcond, rfl⟩⟩
    · next hcond =>
      split at h
      · next i hbig =>
        cases h
        exact ⟨by simpa using herr, rfl, rfl, rfl, Or.inr ⟨hcond, i, hbig, rfl⟩⟩
      · exact absurd h (by simp)

/-- A non-empty error string makes `d1MapResult` throw exactly it. -/
theorem d1MapResult_throws (res : D1Result) (s : String)
    (he : res.error = some s) (hs : s ≠ "") :
    d1MapResult res = Except.error (JsError.thrown s) := by
  unfold d1MapResult
  rw [he]
  simp [errTruthy, hs]

/-- A non-truthy error field never reaches the remote-error throw, and
yields a normal result whenever the `insertId` conversion is not the
obstacle. -/
theorem d1MapResult_not_thrown (res : D1Result)
    (h : errTruthy res.error = false) :
    (∀ s, d1MapResult res ≠ Except.error (JsError.thrown s)) ∧
    ((optChainId res.results.getLast? = JSVal.undefined ∨
      optChainId res.results.getLast? = JSVal.null ∨
      (jsBigInt (optChainId res.results.getLast?)).isSome = true) →
      ∃ r, d1MapResult res = Except.ok r) := by
  unfold d1MapResult
  constructor
  · intro s
    split
    · next herr => rw [h] at herr; exact absurd herr (by simp)
    · split
      · simp
      · split <;> simp
  · intro hc
    split
    · next herr => rw [h] at herr; exact absurd herr (by simp)
    · split
      · exact ⟨_, rfl⟩
      · next hne =>
        split
        · exact ⟨_, rfl⟩
        · next hnone =>
          rcases hc with h1 | h1 | h1
          · exact absurd (Or.inl h1) hne
          · exact absurd (Or.inr h1) hne
          · rw [hnone] at h1; exact absurd h1 (by simp)

/-- A non-integral numeric `id` on the last row makes the `BigInt`
conversion throw even without a remote error. -/
theorem d1MapResult_nonintegral_id (res : D1Result) (v : ℚ)
    (he : res.error = none)
    (hid : optChainId res.results.getLast? = JSVal.num v)
    (hv : v.den ≠ 1) :
    d1MapResult res = Except.error JsError.rangeError := by
  unfold d1MapResult
  rw [he, hid]
  simp [errTruthy, jsBigInt, hv]

/-! ## Claim theorems -/

/-- C1: for every successful `executeQuery` call, `insertId` is present
exactly when the last row of the result sequence carries an `id` field
that is neither `undefined` nor `null`, and then it equals that value's
BigInt conversion; otherwise (in particular on an empty result
sequence) `insertId` is absent. -/
theorem executeQuery_insertId_spec (c : D1Connection) (q : CompiledQuery)
    (r : QueryResult) (h : (c.executeQuery q).1 = Except.ok r) :
    (optChainId (c.config.database q.sql q.parameters).results.getLast? =
        JSVal.undefined ∨
     optChainId (c.config.database q.sql q.parameters).results.getLast? =
        JSVal.null →
      r.insertId = none) ∧
    (optChainId (c.config.database q.sql q.parameters).results.getLast? ≠
        JSVal.undefined →
     optChainId (c.config.database q.sql q.parameters).results.getLast? ≠
        JSVal.null →
      ∃ i, jsBigInt
          (optChainId (c.config.database q.sql q.parameters).results.getLast?) =
            some i ∧
        r.insertId = some i) := by
  rcases (d1MapResult_ok_spec _ r h).2.2.2.2 with ⟨hc, hid⟩ | ⟨hnc, i, hbi, hid⟩
  · exact ⟨fun _ => hid, fun h1 h2 => absurd hc (by tauto)⟩
  · exact ⟨fun hc => absurd hc hnc, fun _ _ => ⟨i, hbi, hid⟩⟩

/-- Witness for C1 at a concrete input: remote rows `[{id: 7}]`, no
error; `executeQuery` succeeds with that result and the theorem yields
`insertId = some 7`. -/
theorem executeQuery_insertId_spec_witness :
    ∃ i, jsBigInt (optChainId
        (((fun (_ : String) (_ : List JSVal) =>
            (⟨none, ⟨1, 0⟩, [[("id", JSVal.num 7)]]⟩ : D1Result))
          "SELECT 1" []).results.getLast?)) = some i ∧
      (⟨some 7, [[("id", JSVal.num 7)]], 1, 1⟩ : QueryResult).insertId = some i :=
  (executeQuery_insertId_spec
      ⟨⟨fun _ _ => ⟨none, ⟨1, 0⟩, [[("id", JSVal.num 7)]]⟩⟩⟩
      ⟨"SELECT 1", []⟩
      ⟨some 7, [[("id", JSVal.num 7)]], 1, 1⟩ rfl).2
    (by simp [optChainId, jsGet]) (by simp [optChainId, jsGet])

/-- C2 counterexample: a remote response whose error field is set — to
the empty string — does not make `executeQuery` throw; it returns a
normal result, because `if (result.error)` tests truthiness and the
empty string is falsy. -/
theorem executeQuery_error_set_cex :
    (D1Connection.executeQuery ⟨⟨fun _ _ => ⟨some "", ⟨2, 3⟩, []⟩⟩⟩
        ⟨"SELECT 1", []⟩).1 = Except.ok ⟨none, [], 5, 5⟩ := rfl

/-- C2 (amended): for every remote response whose error field is set to
a non-empty string, `executeQuery` throws an error whose message is
exactly that string, with no result returned. -/
theorem executeQuery_nonempty_error_throws (c : D1Connection)
    (q : CompiledQuery) (s : String)
    (he : (c.config.database q.sql q.parameters).error = some s)
    (hs : s ≠ "") :
    (c.executeQuery q).1 = Except.error (JsError.thrown s) :=
  d1MapResult_throws _ s he hs

/-- Witness for C2 at a concrete input: error string "boom". -/
theorem executeQuery_nonempty_error_throws_witness :
    (D1Connection.executeQuery ⟨⟨fun _ _ => ⟨some "boom", ⟨0, 0⟩, []⟩⟩⟩
        ⟨"SELECT 1", []⟩).1 = Except.error (JsError.thrown "boom") :=
  executeQuery_nonempty_error_throws
    ⟨⟨fun _ _ => ⟨some "boom", ⟨0, 0⟩, []⟩⟩⟩ ⟨"SELECT 1", []⟩ "boom" rfl
    (by simp)

/-- C3: every successful `executeQuery` call returns
`numAffectedRows = rows_read + rows_written` from the remote metadata,
including when the results array is empty. -/
theorem executeQuery_numAffectedRows_spec (c : D1Connection)
    (q : CompiledQuery) (r : QueryResult)
    (h : (c.executeQuery q).1 = Except.ok r) :
    r.numAffectedRows =
      (c.config.database q.sql q.parameters).meta.rows_read +
      (c.config.database q.sql q.parameters).meta.rows_written :=
  (d1MapResult_ok_spec _ r h).2.2.1

/-- Witness for C3 at a concrete input with empty results:
`rows_read = 2`, `rows_written = 3`, `numAffectedRows = 5`. -/
theorem executeQuery_numAffectedRows_spec_witness :
    (⟨none, [], 5, 5⟩ : QueryResult).numAffectedRows = 2 + 3 :=
  executeQuery_numAffectedRows_spec
    ⟨⟨fun _ _ => ⟨none, ⟨2, 3⟩, []⟩⟩⟩ ⟨"DELETE FROM t", []⟩
    ⟨none, [], 5, 5⟩ rfl

/-- C4: every call to `beginTransaction`, `commitTransaction`,
`rollbackTransaction` — on the connection directly or forwarded through
the driver — and every `streamQuery` call fails, for every connection,
driver, query and chunk size (the connection holds no mutable state, so
this is independent of any prior call sequence); the transaction calls
throw "Transactions are not supported yet." and `streamQuery` throws
"D1 Driver does not support streaming".  None performs a remote call. -/
theorem transactions_and_streaming_always_fail (c : D1Connection)
    (d : D1Driver) (q : CompiledQuery) (n : Nat) :
    c.beginTransaction =
      (Except.error (JsError.thrown "Transactions are not supported yet."), []) ∧
    c.commitTransaction =
      (Except.error (JsError.thrown "Transactions are not supported yet."), []) ∧
    c.rollbackTransaction =
      (Except.error (JsError.thrown "Transactions are not supported yet."), []) ∧
    d.beginTransaction c =
      (Except.error (JsError.thrown "Transactions are not supported yet."), []) ∧
    d.commitTransaction c =
      (Except.error (JsError.thrown "Transactions are not supported yet."), []) ∧
    d.rollbackTransaction c =
      (Except.error (JsError.thrown "Transactions are not supported yet."), []) ∧
    c.streamQuery q n =
      (Except.error (JsError.thrown "D1 Driver does not support streaming"), []) :=
  ⟨rfl, rfl, rfl, rfl, rfl, rfl, rfl⟩

/-- C5: `executeQuery` issues exactly one remote call, carrying the
compiled query's SQL text unmodified and exactly its parameter list in
the original order. -/
theorem executeQuery_forwards_params (c : D1Connection) (q : CompiledQuery) :
    (c.executeQuery q).2 = [⟨q.sql, q.parameters⟩] := rfl

/-- C6: the spec's worked example: `SELECT * FROM t WHERE x = ?` with
parameter `[5]` against a remote response
`{error: null, meta: {rows_read: 1, rows_written: 0}, results: [{id: 7, x: 5}]}`
returns `{insertId: 7n, rows: [{id: 7, x: 5}], numAffectedRows: 1}`
(and the deprecated `numUpdatedOrDeletedRows = 1`), issuing exactly
that one remote call. -/
theorem executeQuery_worked_example :
    D1Connection.executeQuery
        ⟨⟨fun _ _ =>
          ⟨none, ⟨1, 0⟩, [[("id", JSVal.num 7), ("x", JSVal.num 5)]]⟩⟩⟩
        ⟨"SELECT * FROM t WHERE x = ?", [JSVal.num 5]⟩ =
      (Except.ok ⟨some 7, [[("id", JSVal.num 7), ("x", JSVal.num 5)]], 1, 1⟩,
       [⟨"SELECT * FROM t WHERE x = ?", [JSVal.num 5]⟩]) := rfl

/-- C7: for every driver, `acquireConnection` succeeds with a fresh
connection bound to the same configuration, `releaseConnection` on it
succeeds doing nothing, and neither performs any remote call. -/
theorem acquire_release_no_remote_call (d : D1Driver) :
    ∃ c : D1Connection,
      d.acquireConnection = (Except.ok c, []) ∧
      c.config = d.config ∧
      d.releaseConnection c = (Except.ok (), []) :=
  ⟨⟨d.config⟩, rfl, rfl, rfl⟩

/-- C8 counterexample: with the error field set to the empty string but
a last row whose `id` is the non-integral number 3/2, `executeQuery`
still throws — from the `BigInt` conversion — so "does not throw and
proceeds to return a normal result" does not hold unconditionally. -/
theorem executeQuery_empty_error_cex :
    (D1Connection.executeQuery
        ⟨⟨fun _ _ => ⟨some "", ⟨0, 0⟩, [[("id", JSVal.num (mkRat 3 2))]]⟩⟩⟩
        ⟨"SELECT 1", []⟩).1 = Except.error JsError.rangeError := rfl

/-- C8 (amended): `executeQuery` throws the remote-error branch only
when the error field is truthy; with the error field equal to the empty
string (set but falsy) it never throws the remote-error exception, and
it returns a normal result whenever the last row's `id` is `undefined`,
`null`, or BigInt-convertible. -/
theorem executeQuery_error_truthiness (c : D1Connection) (q : CompiledQuery) :
    (∀ s, (c.executeQuery q).1 = Except.error (JsError.thrown s) →
      errTruthy (c.config.database q.sql q.parameters).error = true) ∧
    ((c.config.database q.sql q.parameters).error = some "" →
      (∀ s, (c.executeQuery q).1 ≠ Except.error (JsError.thrown s)) ∧
      ((optChainId (c.config.database q.sql q.parameters).results.getLast? =
          JSVal.undefined ∨
        optChainId (c.config.database q.sql q.parameters).results.getLast? =
          JSVal.null ∨
        (jsBigInt (optChainId
          (c.config.database q.sql q.parameters).results.getLast?)).isSome =
            true) →
        ∃ r, (c.executeQuery q).1 = Except.ok r)) := by
  constructor
  · intro s hs
    by_contra hb
    have hf : errTruthy (c.config.database q.sql q.parameters).error = false := by
      revert hb
      cases errTruthy (c.config.database q.sql q.parameters).error <;> simp
    exact (d1MapResult_not_thrown _ hf).1 s hs
  · intro he
    have hf : errTruthy (c.config.database q.sql q.parameters).error = false := by
      rw [he]; rfl
    exact d1MapResult_not_thrown _ hf

/-- Witness for C8 at a concrete input: error field `""`, one row
`{id: 7}`; `executeQuery` returns a normal result. -/
theorem executeQuery_error_truthiness_witness :
    ∃ r, (D1Connection.executeQuery
        ⟨⟨fun _ _ => ⟨some "", ⟨1, 2⟩, [[("id", JSVal.num 7)]]⟩⟩⟩
        ⟨"SELECT 1", []⟩).1 = Except.ok r :=
  ((executeQuery_error_truthiness
      ⟨⟨fun _ _ => ⟨some "", ⟨1, 2⟩, [[("id", JSVal.num 7)]]⟩⟩⟩
      ⟨"SELECT 1", []⟩).2 rfl).2
    (Or.inr (Or.inr rfl))

/-- C9: the `BigInt` conversion is partial: a successful remote
response (no error set) whose last row carries a non-integral numeric
`id` makes `executeQuery` throw from the conversion. -/
theorem executeQuery_nonintegral_id_throws (c : D1Connection)
    (q : CompiledQuery) (v : ℚ)
    (he : (c.config.database q.sql q.parameters).error = none)
    (hid : optChainId (c.config.database q.sql q.parameters).results.getLast? =
      JSVal.num v)
    (hv : v.den ≠ 1) :
    (c.executeQuery q).1 = Except.error JsError.rangeError :=
  d1MapResult_nonintegral_id _ v he hid hv

/-- Witness for C9 at a concrete input: last row `{id: 3/2}` with no
remote error; `executeQuery` throws the conversion error. -/
theorem executeQuery_nonintegral_id_throws_witness :
    (D1Connection.executeQuery
        ⟨⟨fun _ _ => ⟨none, ⟨0, 0⟩, [[("id", JSVal.num (mkRat 3 2))]]⟩⟩⟩
        ⟨"SELECT 1", []⟩).1 = Except.error JsError.rangeError :=
  executeQuery_nonintegral_id_throws
    ⟨⟨fun _ _ => ⟨none, ⟨0, 0⟩, [[("id", JSVal.num (mkRat 3 2))]]⟩⟩⟩
    ⟨"SELECT 1", []⟩ (mkRat 3 2) rfl (by simp [optChainId, jsGet])
    (by decide)

/-- C10: every successful `executeQuery` result carries the deprecated
backward-compatibility field `numUpdatedOrDeletedRows`, always equal to
`numAffectedRows`, i.e. to `rows_read + rows_written`. -/
theorem executeQuery_numUpdatedOrDeletedRows_spec (c : D1Connection)
    (q : CompiledQuery) (r : QueryResult)
    (h : (c.executeQuery q).1 = Except.ok r) :
    r.numUpdatedOrDeletedRows = r.numAffectedRows ∧
    r.numUpdatedOrDeletedRows =
      (c.config.database q.sql q.parameters).meta.rows_read +
      (c.config.database q.sql q.parameters).meta.rows_written := by
  have hs := d1MapResult_ok_spec _ r h
  exact ⟨hs.2.2.2.1.trans hs.2.2.1.symm, hs.2.2.2.1⟩

/-- Witness for C10 at a concrete input. -/
theorem executeQuery_numUpdatedOrDeletedRows_spec_witness :
    (⟨none, [], 7, 7⟩ : QueryResult).numUpdatedOrDeletedRows =
      (⟨none, [], 7, 7⟩ : QueryResult).numAffectedRows ∧
    (⟨none, [], 7, 7⟩ : QueryResult).numUpdatedOrDeletedRows = 3 + 4 :=
  executeQuery_numUpdatedOrDeletedRows_spec
    ⟨⟨fun _ _ => ⟨none, ⟨3, 4⟩, []⟩⟩⟩ ⟨"UPDATE t SET x = 1", []⟩
    ⟨none, [], 7, 7⟩ rfl
